import Mathlib

/-!
Shallow embedding of the security-response engine of
`netstat_security_scanner.py` (classes `SecurityResponseManager` and
`AdvancedNetstatScanner`), together with theorems settling the frozen
claims about its specification.

Conventions of the embedding:
* timestamps are natural numbers counting seconds (`datetime` arithmetic is
  exact, so `timedelta(hours=h)` becomes `h * 3600`);
* IPv4 addresses follow the semantics of Python's `ipaddress` module
  (CPython 3.11): `is_private` is membership in the fixed list of IANA
  special-registry networks, which includes the documentation ranges;
* an address string either parses as an IPv4 address (`Addr.v4`) or raises
  `ValueError` (`Addr.malformed`); a whitelist entry string either parses
  via `ipaddress.ip_network` (`WhitelistEntry.network`) or is kept for the
  exact string comparison fallback (`WhitelistEntry.exact`);
* external effects (firewall commands, process kills) are recorded in an
  explicit call list, and the outcome of a `subprocess.run` invocation is an
  input (`FwBehavior`), so that the code around the effect stays faithful.
-/

namespace NetstatScanner

/-- One IPv4 address, as four octets. -/
structure IPv4 where
  o1 : Nat
  o2 : Nat
  o3 : Nat
  o4 : Nat
deriving DecidableEq, Repr

/-- Numeric value of a dotted quad. -/
def ipNat (a b c d : Nat) : Nat := ((a * 256 + b) * 256 + c) * 256 + d

/-- Numeric value of an `IPv4`. -/
def IPv4.toNat (a : IPv4) : Nat := ipNat a.o1 a.o2 a.o3 a.o4

/-- Membership of an address in the network `netAddr/plen`
(`ipaddress.ip_network` containment: the two values agree on the first
`plen` bits). -/
def inNet (a : IPv4) (netAddr plen : Nat) : Bool :=
  a.toNat / 2 ^ (32 - plen) == netAddr / 2 ^ (32 - plen)

/-- The networks of CPython's `IPv4Address._constants._private_networks`
(the IANA special registry used by `is_private`). -/
def privateNetworks : List (Nat × Nat) :=
  [ (ipNat 0 0 0 0, 8)
  , (ipNat 10 0 0 0, 8)
  , (ipNat 127 0 0 0, 8)
  , (ipNat 169 254 0 0, 16)
  , (ipNat 172 16 0 0, 12)
  , (ipNat 192 0 0 0, 29)
  , (ipNat 192 0 0 170, 31)
  , (ipNat 192 0 2 0, 24)
  , (ipNat 192 168 0 0, 16)
  , (ipNat 198 18 0 0, 15)
  , (ipNat 198 51 100 0, 24)
  , (ipNat 203 0 113 0, 24)
  , (ipNat 240 0 0 0, 4)
  , (ipNat 255 255 255 255, 32) ]

/-- Python `ip_obj.is_private` for IPv4. -/
def IPv4.is_private (a : IPv4) : Bool :=
  privateNetworks.any fun p => inNet a p.1 p.2

/-- Python `ip_obj.is_loopback` for IPv4 (membership in `127.0.0.0/8`). -/
def IPv4.is_loopback (a : IPv4) : Bool :=
  inNet a (ipNat 127 0 0 0) 8

/-- An address string: either it parses as an IPv4 address, or
`ipaddress.ip_address` raises `ValueError` on it. -/
inductive Addr where
  | v4 (ip : IPv4)
  | malformed (s : String)
deriving DecidableEq, Repr

/-- The text of an address argument (valid IPv4 strings are canonical
dotted quads, a bijection since the parser rejects leading zeros). -/
def IPv4.text (a : IPv4) : String :=
  toString a.o1 ++ "." ++ toString a.o2 ++ "." ++ toString a.o3 ++ "." ++ toString a.o4

/-- Text of an `Addr`. -/
def Addr.text : Addr → String
  | .v4 a => a.text
  | .malformed s => s

/-- Python truthiness of the address string (`not ip` is true exactly for
the empty string; a parsed dotted quad is never empty). -/
def Addr.isEmptyText : Addr → Bool
  | .v4 _ => false
  | .malformed s => s.data.isEmpty

/-- One entry of `config['response']['ip_whitelist']`: either the entry
string parses via `ipaddress.ip_network`, or that parse raises `ValueError`
and the code falls back to exact string comparison. -/
inductive WhitelistEntry where
  | network (netAddr plen : Nat)
  | exact (s : String)
deriving DecidableEq, Repr

/-- Embeds `SecurityResponseManager.is_whitelisted_ip`.  A malformed
address string raises `ValueError` at `ipaddress.ip_address`, skipping every
check (return `False`).  A valid address is whitelisted when it is loopback
or private, or matches a whitelist entry; for an `exact` entry the original
string is compared (a canonical dotted quad would itself have parsed as a
`/32` network, so the comparison is against the literal entry text). -/
def is_whitelisted_ip (wl : List WhitelistEntry) (ip : Addr) : Bool :=
  match ip with
  | .malformed _ => false
  | .v4 a =>
    if a.is_loopback || a.is_private then true
    else wl.any fun e =>
      match e with
      | .network n p => inNet a n p
      | .exact s => a.text == s

/-- The fixed `critical_processes` set of
`SecurityResponseManager.is_whitelisted_process`. -/
def critical_processes : List String :=
  [ "systemd", "kernel", "kthreadd", "migration", "rcu_", "watchdog"
  , "sshd", "init", "dbus", "networkmanager", "systemd-", "cron"
  , "rsyslog", "ntpd", "chronyd", "apache2", "nginx", "mysql"
  , "postgresql", "redis-server", "mongodb", "docker", "kubelet" ]

/-- Occurrence of one character list inside another: `needle` is a prefix
of some suffix of the second argument. -/
def subOccurs (needle : List Char) : List Char → Bool
  | [] => needle.isEmpty
  | c :: rest => needle.isPrefixOf (c :: rest) || subOccurs needle rest

/-- Python substring test `needle in hay` over the characters of the two
strings. -/
def strContains (hay needle : String) : Bool :=
  subOccurs needle.data hay.data

/-- Python `s.lower()` (ASCII names suffice for the fixed lists). -/
def strLower (s : String) : String :=
  ⟨s.data.map Char.toLower⟩

/-- The critical-process test of `is_whitelisted_process`: some fixed entry
occurs as a substring of the lowercased name. -/
def matchesCritical (name : String) : Bool :=
  critical_processes.any fun c => strContains (strLower name) c

/-- Embeds `SecurityResponseManager.is_whitelisted_process`.  The name is
`None` (`Option.none`) or a string; `if not process_name` catches both
`None` and the empty string.  The pid test `if pid and pid <= 10` requires
a truthy (nonzero) pid. -/
def is_whitelisted_process (wl : List String) (name : Option String) (pid : Nat) : Bool :=
  match name with
  | none => false
  | some n =>
    if n.data.isEmpty then false
    else if matchesCritical n then true
    else if wl.contains n then true
    else if pid != 0 && pid ≤ 10 then true
    else false

/-- The field `auto_unblock_time` of a `blocked_ips` row (a TEXT column:
absent, a parseable ISO timestamp, or text on which
`datetime.fromisoformat` raises). -/
inductive ExpiryField where
  | null
  | malformed (s : String)
  | time (t : Nat)
deriving DecidableEq, Repr

/-- One row of the `blocked_ips` table. -/
structure BlockedRow where
  ip : Addr
  reason : String
  timestamp : Nat
  auto_unblock_time : ExpiryField
deriving DecidableEq, Repr

/-- One row of the `suspended_processes` table. -/
structure SuspRow where
  pid : Nat
  name : String
  reason : String
  timestamp : Nat
deriving DecidableEq, Repr

/-- One audit record (a `response_log` row / `audit_log` entry). -/
structure AuditEntry where
  action : String
  target : String
  reason : String
  timestamp : Nat
  success : Bool
deriving DecidableEq, Repr

/-- The mutable state of a `SecurityResponseManager`: the in-memory sets,
the durable tables, and the audit stores. -/
structure MgrState where
  blocked_ips : List Addr
  suspended_processes : List Nat
  db_blocked : List BlockedRow
  db_suspended : List SuspRow
  response_log : List AuditEntry
  audit_log : List AuditEntry
deriving DecidableEq, Repr

/-- Insertion into a Python set modelled as a duplicate-free list. -/
def setInsert (x : Addr) (s : List Addr) : List Addr :=
  if x ∈ s then s else x :: s

/-- Embeds `SecurityResponseManager.log_response`: insert into the durable
`response_log` table and append to the in-memory audit log, keeping only the
last 1000 in-memory entries. -/
def log_response (st : MgrState) (action target reason : String) (now : Nat)
    (success : Bool) : MgrState :=
  let e : AuditEntry := ⟨action, target, reason, now, success⟩
  let l := st.audit_log ++ [e]
  { st with
    response_log := st.response_log ++ [e]
    audit_log := if l.length > 1000 then l.drop (l.length - 1000) else l }

/-- The operating systems distinguished by `platform.system().lower()`. -/
inductive OsKind where
  | linux
  | darwin
  | windows
  | other
deriving DecidableEq, Repr

/-- One external firewall action (a `subprocess.run` of the named command,
or the rule-file manipulation of the macOS path). -/
inductive FwCall where
  | iptablesAddInput (ip : Addr)
  | iptablesAddOutput (ip : Addr)
  | iptablesDelInput (ip : Addr)
  | iptablesDelOutput (ip : Addr)
  | writePfRuleFile (ip : Addr)
  | pfctlLoad (ip : Addr)
  | removePfRuleFile (ip : Addr)
  | netshAddIn (ip : Addr)
  | netshAddOut (ip : Addr)
  | netshDelIn (ip : Addr)
  | netshDelOut (ip : Addr)
deriving DecidableEq, Repr

/-- Outcome of the primary firewall command of `block_ip`: return code 0,
a nonzero return code, or an exception raised by the attempt. -/
inductive FwBehavior where
  | ok
  | fail
  | raise
deriving DecidableEq, Repr

/-- The return sites of `SecurityResponseManager.block_ip`, one constructor
per `return` statement. -/
inductive BlockRes where
  | whitelistedOrInvalid
  | alreadyBlocked
  | blocked (expiry : Nat)
  | execFailed
  | errored
deriving DecidableEq, Repr

/-- Success flag of a `block_ip` result. -/
def BlockRes.success : BlockRes → Bool
  | .blocked _ => true
  | _ => false

/-- Result of a manager operation: the `(bool, message)` pair abstracted to
its return site, the state after the call, and the external calls made. -/
structure BlockOut where
  res : BlockRes
  st : MgrState
  calls : List FwCall
deriving Repr

/-- Embeds `SecurityResponseManager.block_ip`.  The whitelist and
already-blocked guards return before any external action; the platform
branch issues the firewall commands (their primary outcome is the input
`fw`); only confirmed success mutates `blocked_ips` and the database, with
expiry `now + durationHours * 3600`; every non-guard outcome is logged.
On an unknown platform `success` stays `False` with `command = None` and
the `else` branch raises `NameError` on the unbound `result`, landing in
the `except` handler. -/
def block_ip (sys : OsKind) (fw : FwBehavior) (wl : List WhitelistEntry)
    (now : Nat) (st : MgrState) (ip : Addr) (reason : String)
    (durationHours : Nat) : BlockOut :=
  if ip.isEmptyText || is_whitelisted_ip wl ip then
    ⟨.whitelistedOrInvalid, st, []⟩
  else if ip ∈ st.blocked_ips then
    ⟨.alreadyBlocked, st, []⟩
  else
    match sys with
    | .other =>
      ⟨.errored, log_response st "block_ip" ip.text reason now false, []⟩
    | .linux =>
      match fw with
      | .raise =>
        ⟨.errored, log_response st "block_ip" ip.text reason now false,
          [.iptablesAddInput ip]⟩
      | .fail =>
        ⟨.execFailed, log_response st "block_ip" ip.text reason now false,
          [.iptablesAddInput ip]⟩
      | .ok =>
        let expiry := now + durationHours * 3600
        let st := { st with
          blocked_ips := setInsert ip st.blocked_ips
          db_blocked :=
            st.db_blocked.filter (fun r => r.ip != ip)
              ++ [⟨ip, reason, now, .time expiry⟩] }
        ⟨.blocked expiry, log_response st "block_ip" ip.text reason now true,
          [.iptablesAddInput ip, .iptablesAddOutput ip]⟩
    | .darwin =>
      match fw with
      | .raise =>
        ⟨.errored, log_response st "block_ip" ip.text reason now false,
          [.writePfRuleFile ip, .pfctlLoad ip]⟩
      | .fail =>
        ⟨.execFailed, log_response st "block_ip" ip.text reason now false,
          [.writePfRuleFile ip, .pfctlLoad ip]⟩
      | .ok =>
        let expiry := now + durationHours * 3600
        let st := { st with
          blocked_ips := setInsert ip st.blocked_ips
          db_blocked :=
            st.db_blocked.filter (fun r => r.ip != ip)
              ++ [⟨ip, reason, now, .time expiry⟩] }
        ⟨.blocked expiry, log_response st "block_ip" ip.text reason now true,
          [.writePfRuleFile ip, .pfctlLoad ip]⟩
    | .windows =>
      match fw with
      | .raise =>
        ⟨.errored, log_response st "block_ip" ip.text reason now false,
          [.netshAddIn ip]⟩
      | .fail =>
        ⟨.execFailed, log_response st "block_ip" ip.text reason now false,
          [.netshAddIn ip]⟩
      | .ok =>
        let expiry := now + durationHours * 3600
        let st := { st with
          blocked_ips := setInsert ip st.blocked_ips
          db_blocked :=
            st.db_blocked.filter (fun r => r.ip != ip)
              ++ [⟨ip, reason, now, .time expiry⟩] }
        ⟨.blocked expiry, log_response st "block_ip" ip.text reason now true,
          [.netshAddIn ip, .netshAddOut ip]⟩

/-- The return sites of `SecurityResponseManager.unblock_ip`. -/
inductive UnblockRes where
  | notBlocked
  | unblocked
  | failedUnknownOs
deriving DecidableEq, Repr

/-- Result of `unblock_ip`. -/
structure UnblockOut where
  res : UnblockRes
  st : MgrState
  calls : List FwCall
deriving Repr

/-- Embeds `SecurityResponseManager.unblock_ip`.  On the three known
platforms the removal commands are issued with their results ignored and
`success` is set unconditionally, so the Ledger record is deleted and the
audit entry written with the fixed reason string `"Manual unblock"`; an
unknown platform leaves `success = False`. -/
def unblock_ip (sys : OsKind) (now : Nat) (st : MgrState) (ip : Addr) :
    UnblockOut :=
  if ip ∉ st.blocked_ips then
    ⟨.notBlocked, st, []⟩
  else
    let calls : List FwCall :=
      match sys with
      | .linux => [.iptablesDelInput ip, .iptablesDelOutput ip]
      | .darwin => [.removePfRuleFile ip]
      | .windows => [.netshDelIn ip, .netshDelOut ip]
      | .other => []
    match sys with
    | .other => ⟨.failedUnknownOs, st, calls⟩
    | _ =>
      let st := { st with
        blocked_ips := st.blocked_ips.filter (fun a => a != ip)
        db_blocked := st.db_blocked.filter (fun r => r.ip != ip) }
      ⟨.unblocked, log_response st "unblock_ip" ip.text "Manual unblock" now true,
        calls⟩

/-- Behavior of an existing process when acted on: it exits within the
grace period; it only exits when force-killed; acting on it raises an
unexpected exception caught by the generic handler (for termination, the
process survives even `kill()` and the bounded `wait(timeout=3)` raises
`psutil.TimeoutExpired`, which the inner handler does not catch; for
suspension, `suspend()` raises such an error); or the signal raises
`psutil.AccessDenied`. -/
inductive TermKind where
  | graceful
  | forced
  | unkillable
  | denied
deriving DecidableEq, Repr

/-- How the OS process API behaves for a pid: the process is absent
(`psutil.NoSuchProcess` on `psutil.Process(pid)`), or it exists with a name
and a behavior of the termination path. -/
inductive ProcView where
  | missing
  | alive (name : String) (k : TermKind)
deriving DecidableEq, Repr

/-- One external process-control call. -/
inductive KillCall where
  | sigterm (pid : Nat)
  | sigkill (pid : Nat)
  | sigstop (pid : Nat)
  | sigcont (pid : Nat)
deriving DecidableEq, Repr

/-- The return sites of `SecurityResponseManager.terminate_process`
(`errored` is the generic `except Exception` handler). -/
inductive TermRes where
  | noPid
  | whitelisted
  | terminated
  | notFound
  | accessDenied
  | errored
deriving DecidableEq, Repr

/-- Success flag of a `terminate_process` result. -/
def TermRes.success : TermRes → Bool
  | .terminated => true
  | _ => false

/-- Result of `terminate_process` (and of `suspend`/`resume`, which reuse
the shape with their own return-site inductives). -/
structure TermOut where
  res : TermRes
  st : MgrState
  calls : List KillCall
deriving Repr

/-- Embeds `SecurityResponseManager.terminate_process`.  `if not pid`
refuses a zero pid; a missing process raises `NoSuchProcess`; the whitelist
check precedes any signal; a graceful exit sends only `terminate()`, a
timeout escalates to `kill()`; `AccessDenied` from the signal is caught
without logging; the success path logs with target `PID:pid:name`, and the
generic `except Exception` handler — reached when the process survives even
`kill()` and the forced `wait(timeout=3)` raises `TimeoutExpired` — logs a
failed attempt with target `PID:pid` (no name). -/
def terminate_process (procs : Nat → ProcView) (wl : List String)
    (now : Nat) (st : MgrState) (pid : Nat) (reason : String) : TermOut :=
  if pid == 0 then ⟨.noPid, st, []⟩
  else
    match procs pid with
    | .missing => ⟨.notFound, st, []⟩
    | .alive name k =>
      if is_whitelisted_process wl (some name) pid then
        ⟨.whitelisted, st, []⟩
      else
        match k with
        | .denied => ⟨.accessDenied, st, [.sigterm pid]⟩
        | .graceful =>
          ⟨.terminated,
            log_response st "terminate_process"
              ("PID:" ++ toString pid ++ ":" ++ name) reason now true,
            [.sigterm pid]⟩
        | .forced =>
          ⟨.terminated,
            log_response st "terminate_process"
              ("PID:" ++ toString pid ++ ":" ++ name) reason now true,
            [.sigterm pid, .sigkill pid]⟩
        | .unkillable =>
          ⟨.errored,
            log_response st "terminate_process"
              ("PID:" ++ toString pid) reason now false,
            [.sigterm pid, .sigkill pid]⟩

/-- The return sites of `SecurityResponseManager.suspend_process`
(`errored` is the generic `except Exception` handler). -/
inductive SuspendRes where
  | noPid
  | whitelisted
  | alreadySuspended
  | suspended
  | notFound
  | accessDenied
  | errored
deriving DecidableEq, Repr

/-- Result of `suspend_process`. -/
structure SuspendOut where
  res : SuspendRes
  st : MgrState
  calls : List KillCall
deriving Repr

/-- Embeds `SecurityResponseManager.suspend_process`: whitelist and
already-suspended guards return without logging; a successful `suspend()`
records the pid in memory and in the `suspended_processes` table and logs a
successful audit entry with target `PID:pid:name`; an unexpected exception
from `suspend()` lands in the generic `except Exception` handler, which
logs a failed attempt with target `PID:pid` (no name). -/
def suspend_process (procs : Nat → ProcView) (wl : List String)
    (now : Nat) (st : MgrState) (pid : Nat) (reason : String) : SuspendOut :=
  if pid == 0 then ⟨.noPid, st, []⟩
  else
    match procs pid with
    | .missing => ⟨.notFound, st, []⟩
    | .alive name k =>
      if is_whitelisted_process wl (some name) pid then
        ⟨.whitelisted, st, []⟩
      else if pid ∈ st.suspended_processes then
        ⟨.alreadySuspended, st, []⟩
      else
        match k with
        | .denied => ⟨.accessDenied, st, [.sigstop pid]⟩
        | .unkillable =>
          ⟨.errored,
            log_response st "suspend_process"
              ("PID:" ++ toString pid) reason now false,
            [.sigstop pid]⟩
        | _ =>
          let st := { st with
            suspended_processes := pid :: st.suspended_processes
            db_suspended :=
              st.db_suspended.filter (fun r => r.pid != pid)
                ++ [⟨pid, name, reason, now⟩] }
          ⟨.suspended,
            log_response st "suspend_process"
              ("PID:" ++ toString pid ++ ":" ++ name) reason now true,
            [.sigstop pid]⟩

/-- The return sites of `SecurityResponseManager.resume_process`. -/
inductive ResumeRes where
  | notSuspended
  | resumed
  | notFound
  | errored
deriving DecidableEq, Repr

/-- Result of `resume_process`. -/
structure ResumeOut where
  res : ResumeRes
  st : MgrState
  calls : List KillCall
deriving Repr

/-- Embeds `SecurityResponseManager.resume_process`: the not-suspended
guard returns without logging; success removes the record and logs with the
fixed reason `"Manual resume"`; `AccessDenied` from `resume()` falls into
the generic handler without logging. -/
def resume_process (procs : Nat → ProcView) (now : Nat) (st : MgrState)
    (pid : Nat) : ResumeOut :=
  if pid ∉ st.suspended_processes then
    ⟨.notSuspended, st, []⟩
  else
    match procs pid with
    | .missing => ⟨.notFound, st, []⟩
    | .alive name k =>
      match k with
      | .denied => ⟨.errored, st, [.sigcont pid]⟩
      | _ =>
        let st := { st with
          suspended_processes := st.suspended_processes.filter (fun p => p != pid)
          db_suspended := st.db_suspended.filter (fun r => r.pid != pid) }
        ⟨.resumed,
          log_response st "resume_process"
            ("PID:" ++ toString pid ++ ":" ++ name) "Manual resume" now true,
          [.sigcont pid]⟩

/-- One iteration of the row loop of
`SecurityResponseManager.auto_unblock_expired`: rows with a NULL expiry are
excluded by the `WHERE` clause, a row whose timestamp text fails
`datetime.fromisoformat` is caught by the per-row handler and skipped, and
an expired row (`now >= auto_unblock_time`) is passed to `unblock_ip`. -/
def sweep_step (sys : OsKind) (now : Nat) (st : MgrState) (row : BlockedRow) :
    MgrState :=
  match row.auto_unblock_time with
  | .null => st
  | .malformed _ => st
  | .time t => if now ≥ t then (unblock_ip sys now st row.ip).st else st

/-- Embeds `SecurityResponseManager.auto_unblock_expired`: iterate the rows
fetched from `blocked_ips` at entry, threading the manager state. -/
def auto_unblock_expired (sys : OsKind) (now : Nat) (st : MgrState) :
    MgrState :=
  st.db_blocked.foldl (sweep_step sys now) st

/-- The configuration fields of `AdvancedNetstatScanner` that the response
engine reads (`suspicious_ports` and the `response` sub-document). -/
structure ScanConfig where
  suspicious_ports : List Nat
  response_enabled : Bool
  auto_response : Bool
  require_confirmation : Bool
  ip_whitelist : List WhitelistEntry
  process_whitelist : List String
  auto_block_threshold : Nat
  auto_terminate_threshold : Nat
  default_block_duration_hours : Nat
  max_auto_blocks_per_hour : Nat
deriving Repr

/-- The default values of those fields in `AdvancedNetstatScanner.__init__`
(the whitelist CIDRs parse via `ipaddress.ip_network`). -/
def defaultScanConfig : ScanConfig where
  suspicious_ports :=
    [ 1337, 31337, 12345, 54321, 9999, 6667, 6697
    , 4444, 5555, 7777, 8888, 9090, 1234, 2222, 3333, 6666, 8080
    , 1080, 1081, 5900, 5901, 3389, 23, 2323, 2332
    , 4899, 5000, 5001, 8291, 50050, 50051 ]
  response_enabled := false
  auto_response := false
  require_confirmation := true
  ip_whitelist :=
    [ .network (ipNat 127 0 0 0) 8
    , .network (ipNat 192 168 0 0) 16
    , .network (ipNat 10 0 0 0) 8
    , .network (ipNat 172 16 0 0) 12 ]
  process_whitelist :=
    [ "sshd", "systemd", "kernel", "init", "cron"
    , "apache2", "nginx", "mysql", "postgresql" ]
  auto_block_threshold := 80
  auto_terminate_threshold := 90
  default_block_duration_hours := 24
  max_auto_blocks_per_hour := 10

/-- One normalized `Connection` record as the engine consumes it: the
optional fields mirror `connection.get(...)`, and `risk_score` is the value
attached by the analysis pass (`connection.get('risk_score', 0)` reads 0
when absent). -/
structure Connection where
  foreign_port : Option Nat
  local_port : Option Nat
  foreign_ip : Option Addr
  pid : Option Nat
  program : Option String
  risk_score : Nat
deriving Repr

/-- Python truthiness of the optional address string of a connection. -/
def addrTruthy : Option Addr → Bool
  | none => false
  | some a => !a.isEmptyText

/-- Embeds `AdvancedNetstatScanner.is_internal_ip`: a missing or empty
string is internal, a parse failure is not internal, a parsed address is
internal when private or loopback. -/
def is_internal_ip : Option Addr → Bool
  | none => true
  | some (.malformed s) => s.data.isEmpty
  | some (.v4 a) => a.is_private || a.is_loopback

/-- The substring patterns of the suspicious-process-name rule. -/
def suspiciousNamePatterns : List String := ["temp", "tmp", "unknown"]

/-- Embeds `AdvancedNetstatScanner.calculate_basic_risk_score`: the four
sequential accumulations followed by `min(score, 100)`. -/
def calculate_basic_risk_score (cfg : ScanConfig) (c : Connection) : Nat :=
  let score := 0
  let score := score +
    (match c.foreign_port with
     | some p => if cfg.suspicious_ports.contains p then 30 else 0
     | none => 0)
  let score := score +
    (match c.local_port with
     | some p => if cfg.suspicious_ports.contains p then 25 else 0
     | none => 0)
  let score := score +
    (if addrTruthy c.foreign_ip && !is_internal_ip c.foreign_ip then 20 else 0)
  let program := c.program.getD ""
  let score := score +
    (if !program.data.isEmpty
        && suspiciousNamePatterns.any (fun pat => strContains (strLower program) pat)
     then 15 else 0)
  min score 100

/-- Alert severity as attached by
`AdvancedNetstatScanner.analyze_netstat_comprehensive`. -/
inductive Severity where
  | medium
  | high
deriving DecidableEq, Repr

/-- Embeds the alert rule of `analyze_netstat_comprehensive`: an alert is
generated when `risk_score > 50`, with severity `high` when
`risk_score > 80` and `medium` otherwise. -/
def alertSeverityFor (riskScore : Nat) : Option Severity :=
  if riskScore > 50 then some (if riskScore > 80 then .high else .medium)
  else none

/-- The mutable counters of the auto-response controller
(`self.auto_block_count` and `self.last_auto_block_reset`). -/
structure CtrlState where
  auto_block_count : Nat
  last_auto_block_reset : Nat
deriving DecidableEq, Repr

/-- Embeds `AdvancedNetstatScanner.check_auto_block_limits`: reset the
counter when strictly more than one hour has elapsed since the last reset,
then compare the counter with `max_auto_blocks_per_hour`.  Returns the
budget check together with the (possibly reset) counters. -/
def check_auto_block_limits (cfg : ScanConfig) (now : Nat) (cs : CtrlState) :
    Bool × CtrlState :=
  let cs := if cs.last_auto_block_reset + 3600 < now then ⟨0, now⟩ else cs
  (cs.auto_block_count < cfg.max_auto_blocks_per_hour, cs)

/-- What `handle_suspicious_connection` did for one connection. -/
inductive AutoAction where
  | termAttempt (pid : Nat) (ok : Bool)
  | blockAttempt (ip : Addr) (ok : Bool)
  | prompted
  | noAction
deriving DecidableEq, Repr

/-- Whether an `AutoAction` is a successful automatic block. -/
def AutoAction.isBlockSuccess : AutoAction → Bool
  | .blockAttempt _ true => true
  | _ => false

/-- Whether an `AutoAction` invoked an Executor operation at all. -/
def AutoAction.isExecutorCall : AutoAction → Bool
  | .termAttempt _ _ => true
  | .blockAttempt _ _ => true
  | _ => false

/-- Result of one `handle_suspicious_connection` step. -/
structure HandleOut where
  mgr : MgrState
  ctrl : CtrlState
  act : AutoAction
deriving Repr

/-- Embeds `AdvancedNetstatScanner.handle_suspicious_connection`.  The
response feature gate returns immediately.  Under `auto_response` the
budget guard `check_auto_block_limits` runs first (mutating the counters);
when it passes, termination is preferred over blocking, and the block
counter is incremented only when `block_ip` reported success.  When the
`auto_response and check()` condition is false (either disabled or budget
exhausted), the `elif` falls through to the confirmation prompt for
`risk_score > 50`. -/
def handle_suspicious_connection (cfg : ScanConfig) (sys : OsKind)
    (procs : Nat → ProcView) (fw : FwBehavior) (now : Nat)
    (st : MgrState) (cs : CtrlState) (c : Connection) : HandleOut :=
  if !cfg.response_enabled then ⟨st, cs, .noAction⟩
  else
    let r := c.risk_score
    let tryConfirm : CtrlState → HandleOut := fun cs =>
      if cfg.require_confirmation && r > 50 then ⟨st, cs, .prompted⟩
      else ⟨st, cs, .noAction⟩
    if cfg.auto_response then
      let (ok, cs) := check_auto_block_limits cfg now cs
      if ok then
        match c.pid,
          decide (r ≥ cfg.auto_terminate_threshold) &&
            (c.pid.getD 0 != 0) &&
            !is_whitelisted_process cfg.process_whitelist c.program (c.pid.getD 0) with
        | some pid, true =>
          let out := terminate_process procs cfg.process_whitelist now st pid
            ("Auto-terminate: Risk score " ++ toString r)
          ⟨out.st, cs, .termAttempt pid out.res.success⟩
        | _, _ =>
          match c.foreign_ip,
            decide (r ≥ cfg.auto_block_threshold) && addrTruthy c.foreign_ip &&
              !is_whitelisted_ip cfg.ip_whitelist (c.foreign_ip.getD (.malformed "")) with
          | some fip, true =>
            let out := block_ip sys fw cfg.ip_whitelist now st fip
              ("Auto-block: Risk score " ++ toString r)
              cfg.default_block_duration_hours
            if out.res.success then
              ⟨out.st, { cs with auto_block_count := cs.auto_block_count + 1 },
                .blockAttempt fip true⟩
            else ⟨out.st, cs, .blockAttempt fip false⟩
          | _, _ => ⟨st, cs, .noAction⟩
      else tryConfirm cs
    else tryConfirm cs

/-- One event of an auto-response run: the wall-clock instant of the cycle,
the scored connection, and the outcome the firewall would report for a
block attempted now. -/
structure AutoEvent where
  now : Nat
  conn : Connection
  fw : FwBehavior
deriving Repr

/-- A run of the controller over a list of scored connections, collecting
the action record of every step. -/
def autoRun (cfg : ScanConfig) (sys : OsKind) (procs : Nat → ProcView)
    (st : MgrState) (cs : CtrlState) :
    List AutoEvent → MgrState × CtrlState × List AutoAction
  | [] => (st, cs, [])
  | e :: rest =>
    let h := handle_suspicious_connection cfg sys procs e.fw e.now st cs e.conn
    let (st', cs', acts) := autoRun cfg sys procs h.mgr h.ctrl rest
    (st', cs', h.act :: acts)

/-- Number of successful automatic blocks recorded in a run. -/
def successfulBlocks (acts : List AutoAction) : Nat :=
  (acts.filter AutoAction.isBlockSuccess).length

/-- JSON-like configuration values, as loaded by `json.load` or present in
the default configuration (Python sets of ports are sequences here, which
is immaterial to the merge: only dict-ness matters to `deep_merge_config`). -/
inductive JVal where
  | num (n : Int)
  | str (s : String)
  | boolean (b : Bool)
  | arr (xs : List JVal)
  | dict (entries : List (String × JVal))

/-- Lookup of a key in a dict (Python dict keys are unique, so the first
match is the match). -/
def jLookup : List (String × JVal) → String → Option JVal
  | [], _ => none
  | e :: rest, k => if e.1 == k then some e.2 else jLookup rest k

/-- Python dict assignment `base[key] = value`: replace the value when the
key is present (dict keys are unique), append the key otherwise. -/
def jSet : List (String × JVal) → String → JVal → List (String × JVal)
  | [], k, v => [(k, v)]
  | e :: rest, k, v =>
    if e.1 == k then (e.1, v) :: rest else e :: jSet rest k v

/-- Embeds `AdvancedNetstatScanner.deep_merge_config`: for each key of the
update, recurse when both sides hold a dict at that key, otherwise assign
the update's value into the base — whether or not the key already exists in
the base. -/
def deepMerge (base : List (String × JVal)) :
    List (String × JVal) → List (String × JVal)
  | [] => base
  | (k, JVal.dict u) :: rest =>
    (match jLookup base k with
     | some (JVal.dict d) => deepMerge (jSet base k (JVal.dict (deepMerge d u))) rest
     | _ => deepMerge (jSet base k (JVal.dict u)) rest)
  | (k, v) :: rest => deepMerge (jSet base k v) rest
termination_by update => sizeOf update
decreasing_by all_goals simp_wf <;> omega

/-- Integer list as a JSON sequence. -/
def jNums (xs : List Int) : JVal := .arr (xs.map .num)

/-- String list as a JSON sequence. -/
def jStrs (xs : List String) : JVal := .arr (xs.map .str)

/-- The full default configuration dict built in
`AdvancedNetstatScanner.__init__`, over which a loaded configuration file
is deep-merged. -/
def defaultConfigDict : List (String × JVal) :=
  [ ("suspicious_ports", jNums
      [ 1337, 31337, 12345, 54321, 9999, 6667, 6697
      , 4444, 5555, 7777, 8888, 9090, 1234, 2222, 3333, 6666, 8080
      , 1080, 1081, 5900, 5901, 3389, 23, 2323, 2332
      , 4899, 5000, 5001, 8291, 50050, 50051 ])
  , ("legitimate_ports", jNums
      [ 22, 25, 53, 80, 110, 143, 443, 465, 587, 993, 995
      , 21, 990, 123, 161, 162, 636, 3306, 5432, 1433
      , 6379, 27017, 9200, 9300, 9092, 2181, 5672, 15672 ])
  , ("response", .dict
      [ ("enabled", .boolean false)
      , ("auto_response", .boolean false)
      , ("require_confirmation", .boolean true)
      , ("ip_whitelist", jStrs
          [ "127.0.0.0/8", "192.168.0.0/16", "10.0.0.0/8", "172.16.0.0/12" ])
      , ("process_whitelist", jStrs
          [ "sshd", "systemd", "kernel", "init", "cron"
          , "apache2", "nginx", "mysql", "postgresql" ])
      , ("auto_block_threshold", .num 80)
      , ("auto_terminate_threshold", .num 90)
      , ("default_block_duration_hours", .num 24)
      , ("max_auto_blocks_per_hour", .num 10) ])
  , ("analysis", .dict
      [ ("enable_geolocation", .boolean true)
      , ("enable_whois", .boolean true)
      , ("enable_dns_lookup", .boolean true)
      , ("enable_banner_grab", .boolean true)
      , ("enable_ssl_analysis", .boolean true)
      , ("enable_threat_intel", .boolean true)
      , ("enable_process_analysis", .boolean true)
      , ("max_banner_length", .num 1024)
      , ("connection_timeout", .num 5)
      , ("max_concurrent_lookups", .num 10)
      , ("cache_duration_hours", .num 24) ])
  , ("threat_intel_apis", .dict
      [ ("virustotal", .dict
          [ ("enabled", .boolean false)
          , ("api_key", .str "")
          , ("url", .str "https://www.virustotal.com/vtapi/v2/ip-address/report") ])
      , ("abuseipdb", .dict
          [ ("enabled", .boolean false)
          , ("api_key", .str "")
          , ("url", .str "https://api.abuseipdb.com/api/v2/check") ])
      , ("threatcrowd", .dict
          [ ("enabled", .boolean true)
          , ("url", .str "https://www.threatcrowd.org/searchApi/v2/ip/report/") ]) ])
  , ("risk_weights", .dict
      [ ("suspicious_port", .num 30)
      , ("suspicious_country", .num 25)
      , ("threat_intel_hit", .num 40)
      , ("suspicious_process", .num 35)
      , ("ssl_issues", .num 20)
      , ("reverse_dns_mismatch", .num 15)
      , ("new_domain", .num 10)
      , ("tor_exit_node", .num 45) ]) ]

/-- The state of a freshly constructed manager with an empty database. -/
def initialMgrState : MgrState := ⟨[], [], [], [], [], []⟩

/-- C1: for every address that `is_whitelisted_ip` accepts (loopback,
private-range, or matching a configured whitelist CIDR/exact entry),
`block_ip` fails with the whitelisted refusal (success flag false), leaves
the manager state untouched, and issues no firewall call — on every
platform, whatever the firewall would have reported, and independently of
any risk score (which `block_ip` does not consult). -/
theorem blockAddress_whitelisted_refused (sys : OsKind) (fw : FwBehavior)
    (wl : List WhitelistEntry) (now : Nat) (st : MgrState) (ip : Addr)
    (reason : String) (durationHours : Nat)
    (hwl : is_whitelisted_ip wl ip = true) :
    (block_ip sys fw wl now st ip reason durationHours).res = .whitelistedOrInvalid ∧
    (block_ip sys fw wl now st ip reason durationHours).res.success = false ∧
    (block_ip sys fw wl now st ip reason durationHours).calls = [] ∧
    (block_ip sys fw wl now st ip reason durationHours).st = st := by
  unfold block_ip
  simp [hwl, BlockRes.success]

/-- Witness for C1 at the loopback address `127.0.0.1` with an empty
configured whitelist. -/
theorem blockAddress_whitelisted_refused_witness :
    is_whitelisted_ip [] (Addr.v4 ⟨127, 0, 0, 1⟩) = true ∧
    (block_ip .linux .ok [] 0 initialMgrState (Addr.v4 ⟨127, 0, 0, 1⟩) "r" 24).res
      = .whitelistedOrInvalid :=
  ⟨by decide,
    (blockAddress_whitelisted_refused .linux .ok [] 0 initialMgrState
      (Addr.v4 ⟨127, 0, 0, 1⟩) "r" 24 (by decide)).1⟩

/-- Firewall calls of a successful `block_ip` on each platform. -/
def blockOkCalls (sys : OsKind) (ip : Addr) : List FwCall :=
  match sys with
  | .linux => [.iptablesAddInput ip, .iptablesAddOutput ip]
  | .darwin => [.writePfRuleFile ip, .pfctlLoad ip]
  | .windows => [.netshAddIn ip, .netshAddOut ip]
  | .other => []

/-- State after a successful `block_ip`: the in-memory set gains the
address, the `blocked_ips` table gains the row with the computed expiry,
and a successful audit entry is appended. -/
def afterBlockOk (st : MgrState) (ip : Addr) (reason : String)
    (now dur : Nat) : MgrState :=
  log_response
    { st with
      blocked_ips := setInsert ip st.blocked_ips
      db_blocked :=
        st.db_blocked.filter (fun r => r.ip != ip)
          ++ [⟨ip, reason, now, .time (now + dur * 3600)⟩] }
    "block_ip" ip.text reason now true

theorem block_ip_ok_eq (sys : OsKind) (wl : List WhitelistEntry) (now : Nat)
    (st : MgrState) (ip : Addr) (reason : String) (d : Nat)
    (h1 : ip.isEmptyText = false) (h2 : is_whitelisted_ip wl ip = false)
    (h3 : ip ∉ st.blocked_ips) (h4 : sys ≠ .other) :
    block_ip sys .ok wl now st ip reason d =
      ⟨.blocked (now + d * 3600), afterBlockOk st ip reason now d,
        blockOkCalls sys ip⟩ := by
  cases sys <;>
    simp [block_ip, h1, h2, h3, afterBlockOk, blockOkCalls] at h4 ⊢

/-- C8: after a successful `block_ip` of a non-whitelisted address, an
immediately repeated `block_ip` of the same address returns the
already-blocked refusal with the success flag false, performs no firewall
call, leaves the manager state exactly as the first call left it, and the
Ledger holds exactly one `blocked_ips` row for the address — the row the
first call wrote. -/
theorem blockAddress_twice_alreadyBlocked (sys : OsKind) (fw2 : FwBehavior)
    (wl : List WhitelistEntry) (now now2 : Nat) (st : MgrState) (ip : Addr)
    (r1 r2 : String) (d1 d2 : Nat)
    (h1 : ip.isEmptyText = false) (h2 : is_whitelisted_ip wl ip = false)
    (h3 : ip ∉ st.blocked_ips) (h4 : sys ≠ .other) :
    (block_ip sys .ok wl now st ip r1 d1).res = .blocked (now + d1 * 3600) ∧
    (block_ip sys .ok wl now st ip r1 d1).st.blocked_ips = ip :: st.blocked_ips ∧
    (block_ip sys fw2 wl now2 (block_ip sys .ok wl now st ip r1 d1).st ip r2 d2).res
      = .alreadyBlocked ∧
    (block_ip sys fw2 wl now2 (block_ip sys .ok wl now st ip r1 d1).st ip r2 d2).res.success
      = false ∧
    (block_ip sys fw2 wl now2 (block_ip sys .ok wl now st ip r1 d1).st ip r2 d2).st
      = (block_ip sys .ok wl now st ip r1 d1).st ∧
    (block_ip sys fw2 wl now2 (block_ip sys .ok wl now st ip r1 d1).st ip r2 d2).calls
      = [] ∧
    ((block_ip sys .ok wl now st ip r1 d1).st.db_blocked.filter
        (fun row => row.ip == ip))
      = [⟨ip, r1, now, .time (now + d1 * 3600)⟩] := by
  rw [block_ip_ok_eq sys wl now st ip r1 d1 h1 h2 h3 h4]
  refine ⟨rfl, ?_, ?_, ?_, ?_, ?_, ?_⟩ <;>
    simp [block_ip, afterBlockOk, log_response, setInsert, h1, h2, h3,
      BlockRes.success, List.filter_filter]

/-- Witness for C8: repeated block of `8.8.8.8` on Linux from a fresh
manager state. -/
theorem blockAddress_twice_alreadyBlocked_witness :
    (Addr.v4 ⟨8, 8, 8, 8⟩) ∉ initialMgrState.blocked_ips ∧
    (block_ip .linux .ok [] 3
        (block_ip .linux .ok [] 2 initialMgrState (Addr.v4 ⟨8, 8, 8, 8⟩) "a" 1).st
        (Addr.v4 ⟨8, 8, 8, 8⟩) "b" 1).res
      = .alreadyBlocked :=
  ⟨by decide,
    (blockAddress_twice_alreadyBlocked .linux .ok [] 2 3 initialMgrState
      (Addr.v4 ⟨8, 8, 8, 8⟩) "a" "b" 1 1 (by decide) (by decide) (by decide)
      (by decide)).2.2.1⟩

/-- C4: `block_ip` is transactional on the Ledger: whenever the result's
success flag is false — whitelist or already-blocked guard, a firewall
command reporting failure, an exception, or an unsupported platform — the
in-memory blocked set and the `blocked_ips` table are left exactly as they
were; and when the success flag is true the set gains the address and the
table gains the row whose expiry is `now + durationHours` (in seconds,
`durationHours * 3600`). -/
theorem blockAddress_transactional (sys : OsKind) (fw : FwBehavior)
    (wl : List WhitelistEntry) (now : Nat) (st : MgrState) (ip : Addr)
    (reason : String) (d : Nat) :
    ((block_ip sys fw wl now st ip reason d).res.success = false →
      (block_ip sys fw wl now st ip reason d).st.blocked_ips = st.blocked_ips ∧
      (block_ip sys fw wl now st ip reason d).st.db_blocked = st.db_blocked) ∧
    ((block_ip sys fw wl now st ip reason d).res.success = true →
      (block_ip sys fw wl now st ip reason d).st.blocked_ips
        = setInsert ip st.blocked_ips ∧
      (block_ip sys fw wl now st ip reason d).st.db_blocked
        = st.db_blocked.filter (fun row => row.ip != ip)
            ++ [⟨ip, reason, now, .time (now + d * 3600)⟩]) := by
  unfold block_ip
  split_ifs <;> cases sys <;> cases fw <;>
    simp [BlockRes.success, log_response]

/-- Witness for C4: a Linux firewall failure for `8.8.8.8` leaves a fresh
Ledger unchanged. -/
theorem blockAddress_transactional_witness :
    (block_ip .linux .fail [] 7 initialMgrState (Addr.v4 ⟨8, 8, 8, 8⟩) "w" 2).res.success
      = false ∧
    (block_ip .linux .fail [] 7 initialMgrState (Addr.v4 ⟨8, 8, 8, 8⟩) "w" 2).st.blocked_ips
      = initialMgrState.blocked_ips ∧
    (block_ip .linux .fail [] 7 initialMgrState (Addr.v4 ⟨8, 8, 8, 8⟩) "w" 2).st.db_blocked
      = initialMgrState.db_blocked :=
  ⟨by decide,
    ((blockAddress_transactional .linux .fail [] 7 initialMgrState
        (Addr.v4 ⟨8, 8, 8, 8⟩) "w" 2).1 (by decide)).1,
    ((blockAddress_transactional .linux .fail [] 7 initialMgrState
        (Addr.v4 ⟨8, 8, 8, 8⟩) "w" 2).1 (by decide)).2⟩

/-- Counterexample for C3: blocking the whitelisted loopback address from a
fresh manager is a failed attempt (`Whitelisted`, success flag false), yet
neither the durable `response_log` nor the in-memory audit log receives an
entry — the refusal is not logged. -/
theorem audit_whitelisted_refusal_unlogged :
    (block_ip .linux .ok [] 0 initialMgrState (Addr.v4 ⟨127, 0, 0, 1⟩) "reason" 24).res.success
      = false ∧
    (block_ip .linux .ok [] 0 initialMgrState (Addr.v4 ⟨127, 0, 0, 1⟩) "reason" 24).st.response_log
      = [] ∧
    (block_ip .linux .ok [] 0 initialMgrState (Addr.v4 ⟨127, 0, 0, 1⟩) "reason" 24).st.audit_log
      = [] := by
  decide

/-- C3 amended: the Executor operations append an audit entry only on their
completed-action and exception paths, never on refusals.  `block_ip` logs
(with the matching success flag) exactly when it gets past the whitelist
and already-blocked guards; `terminate_process` logs on successful
termination and, with success false, in its generic `except Exception`
handler, while missing pid, whitelist refusal, `NoSuchProcess` and
`AccessDenied` return unlogged; `suspend_process` likewise logs on success
and in its generic exception handler but on no refusal; `resume_process`
and `unblock_ip` log only on success.  Policy refusals such as
`Whitelisted` therefore leave the audit stores unchanged. -/
theorem audit_logging_amended :
    (∀ (sys : OsKind) (fw : FwBehavior) (wl : List WhitelistEntry)
        (now : Nat) (st : MgrState) (ip : Addr) (r : String) (d : Nat),
      (((block_ip sys fw wl now st ip r d).res = .whitelistedOrInvalid ∨
          (block_ip sys fw wl now st ip r d).res = .alreadyBlocked) →
        (block_ip sys fw wl now st ip r d).st.response_log = st.response_log) ∧
      ((block_ip sys fw wl now st ip r d).res ≠ .whitelistedOrInvalid →
        (block_ip sys fw wl now st ip r d).res ≠ .alreadyBlocked →
        (block_ip sys fw wl now st ip r d).st.response_log
          = st.response_log
              ++ [⟨"block_ip", ip.text, r, now,
                    (block_ip sys fw wl now st ip r d).res.success⟩])) ∧
    (∀ (procs : Nat → ProcView) (wl : List String) (now : Nat)
        (st : MgrState) (pid : Nat) (r : String),
      (((terminate_process procs wl now st pid r).res = .noPid ∨
          (terminate_process procs wl now st pid r).res = .whitelisted ∨
          (terminate_process procs wl now st pid r).res = .notFound ∨
          (terminate_process procs wl now st pid r).res = .accessDenied) →
        (terminate_process procs wl now st pid r).st.response_log
          = st.response_log) ∧
      (∀ name k, procs pid = .alive name k →
        (terminate_process procs wl now st pid r).res = .terminated →
        (terminate_process procs wl now st pid r).st.response_log
          = st.response_log
              ++ [⟨"terminate_process", "PID:" ++ toString pid ++ ":" ++ name,
                    r, now, true⟩]) ∧
      ((terminate_process procs wl now st pid r).res = .errored →
        (terminate_process procs wl now st pid r).st.response_log
          = st.response_log
              ++ [⟨"terminate_process", "PID:" ++ toString pid, r, now,
                    false⟩])) ∧
    (∀ (procs : Nat → ProcView) (wl : List String) (now : Nat)
        (st : MgrState) (pid : Nat) (r : String),
      (((suspend_process procs wl now st pid r).res = .noPid ∨
          (suspend_process procs wl now st pid r).res = .whitelisted ∨
          (suspend_process procs wl now st pid r).res = .alreadySuspended ∨
          (suspend_process procs wl now st pid r).res = .notFound ∨
          (suspend_process procs wl now st pid r).res = .accessDenied) →
        (suspend_process procs wl now st pid r).st.response_log
          = st.response_log) ∧
      (∀ name k, procs pid = .alive name k →
        (suspend_process procs wl now st pid r).res = .suspended →
        (suspend_process procs wl now st pid r).st.response_log
          = st.response_log
              ++ [⟨"suspend_process", "PID:" ++ toString pid ++ ":" ++ name,
                    r, now, true⟩]) ∧
      ((suspend_process procs wl now st pid r).res = .errored →
        (suspend_process procs wl now st pid r).st.response_log
          = st.response_log
              ++ [⟨"suspend_process", "PID:" ++ toString pid, r, now,
                    false⟩])) ∧
    (∀ (procs : Nat → ProcView) (now : Nat) (st : MgrState) (pid : Nat),
      ((resume_process procs now st pid).res ≠ .resumed →
        (resume_process procs now st pid).st.response_log = st.response_log) ∧
      (∀ name k, procs pid = .alive name k →
        (resume_process procs now st pid).res = .resumed →
        (resume_process procs now st pid).st.response_log
          = st.response_log
              ++ [⟨"resume_process", "PID:" ++ toString pid ++ ":" ++ name,
                    "Manual resume", now, true⟩])) ∧
    (∀ (sys : OsKind) (now : Nat) (st : MgrState) (ip : Addr),
      ((unblock_ip sys now st ip).res ≠ .unblocked →
        (unblock_ip sys now st ip).st.response_log = st.response_log) ∧
      ((unblock_ip sys now st ip).res = .unblocked →
        (unblock_ip sys now st ip).st.response_log
          = st.response_log
              ++ [⟨"unblock_ip", ip.text, "Manual unblock", now, true⟩])) := by
  refine ⟨?_, ?_, ?_, ?_, ?_⟩
  · intro sys fw wl now st ip r d
    unfold block_ip
    split_ifs <;> cases sys <;> cases fw <;>
      simp [BlockRes.success, log_response]
  · intro procs wl now st pid r
    refine ⟨?_, ?_, ?_⟩
    · by_cases h0 : (pid == 0) = true
      · simp [terminate_process, h0]
      · cases hpv : procs pid with
        | missing => simp [terminate_process, h0, hpv]
        | alive name k =>
          by_cases hw : is_whitelisted_process wl (some name) pid = true
          · simp [terminate_process, h0, hpv, hw]
          · cases k <;> simp [terminate_process, h0, hpv, hw, log_response]
    · intro name k hp
      by_cases h0 : (pid == 0) = true
      · simp [terminate_process, h0]
      · by_cases hw : is_whitelisted_process wl (some name) pid = true
        · simp [terminate_process, h0, hp, hw]
        · cases k <;> simp [terminate_process, h0, hp, hw, log_response]
    · by_cases h0 : (pid == 0) = true
      · simp [terminate_process, h0]
      · cases hpv : procs pid with
        | missing => simp [terminate_process, h0, hpv]
        | alive name k =>
          by_cases hw : is_whitelisted_process wl (some name) pid = true
          · simp [terminate_process, h0, hpv, hw]
          · cases k <;> simp [terminate_process, h0, hpv, hw, log_response]
  · intro procs wl now st pid r
    refine ⟨?_, ?_, ?_⟩
    · by_cases h0 : (pid == 0) = true
      · simp [suspend_process, h0]
      · cases hpv : procs pid with
        | missing => simp [suspend_process, h0, hpv]
        | alive name k =>
          by_cases hw : is_whitelisted_process wl (some name) pid = true
          · simp [suspend_process, h0, hpv, hw]
          · by_cases hs : pid ∈ st.suspended_processes
            · simp [suspend_process, h0, hpv, hw, hs]
            · cases k <;> simp [suspend_process, h0, hpv, hw, hs, log_response]
    · intro name k hp
      by_cases h0 : (pid == 0) = true
      · simp [suspend_process, h0]
      · by_cases hw : is_whitelisted_process wl (some name) pid = true
        · simp [suspend_process, h0, hp, hw]
        · by_cases hs : pid ∈ st.suspended_processes
          · simp [suspend_process, h0, hp, hw, hs]
          · cases k <;> simp [suspend_process, h0, hp, hw, hs, log_response]
    · by_cases h0 : (pid == 0) = true
      · simp [suspend_process, h0]
      · cases hpv : procs pid with
        | missing => simp [suspend_process, h0, hpv]
        | alive name k =>
          by_cases hw : is_whitelisted_process wl (some name) pid = true
          · simp [suspend_process, h0, hpv, hw]
          · by_cases hs : pid ∈ st.suspended_processes
            · simp [suspend_process, h0, hpv, hw, hs]
            · cases k <;> simp [suspend_process, h0, hpv, hw, hs, log_response]
  · intro procs now st pid
    constructor
    · by_cases hs : pid ∈ st.suspended_processes
      · cases hpv : procs pid with
        | missing => simp [resume_process, hs, hpv]
        | alive name k =>
          cases k <;> simp [resume_process, hs, hpv, log_response]
      · simp [resume_process, hs]
    · intro name k hp
      by_cases hs : pid ∈ st.suspended_processes
      · cases k <;> simp [resume_process, hs, hp, log_response]
      · simp [resume_process, hs]
  · intro sys now st ip
    constructor
    · by_cases hb : ip ∈ st.blocked_ips
      · cases sys <;> simp [unblock_ip, hb, log_response]
      · simp [unblock_ip, hb]
    · by_cases hb : ip ∈ st.blocked_ips
      · cases sys <;> simp [unblock_ip, hb, log_response]
      · simp [unblock_ip, hb]

/-- Witness for C3 amended: a successful Linux block of `9.9.9.9` from a
fresh manager appends exactly its audit entry. -/
theorem audit_logging_amended_witness :
    (block_ip .linux .ok [] 4 initialMgrState (Addr.v4 ⟨9, 9, 9, 9⟩) "x" 1).st.response_log
      = initialMgrState.response_log
          ++ [⟨"block_ip", (Addr.v4 ⟨9, 9, 9, 9⟩).text, "x", 4,
                (block_ip .linux .ok [] 4 initialMgrState (Addr.v4 ⟨9, 9, 9, 9⟩) "x" 1).res.success⟩] :=
  (audit_logging_amended.1 .linux .ok [] 4 initialMgrState
    (Addr.v4 ⟨9, 9, 9, 9⟩) "x" 1).2 (by decide) (by decide)

/-- A process table whose every pid reports an empty name. -/
def emptyNameProcs : Nat → ProcView := fun _ => .alive "" .graceful

/-- Counterexample for C2: pid 1 is at the low-PID floor, yet when the
process reports an empty name `terminate_process` does not return the
whitelisted refusal — it sends the kill signal and reports success, because
`is_whitelisted_process` returns false on an empty name before the pid
check is reached. -/
theorem terminate_lowpid_emptyname_killed :
    (terminate_process emptyNameProcs [] 0 initialMgrState 1 "r").res = .terminated ∧
    (terminate_process emptyNameProcs [] 0 initialMgrState 1 "r").res ≠ .whitelisted ∧
    (terminate_process emptyNameProcs [] 0 initialMgrState 1 "r").calls
      = [.sigterm 1] := by
  decide

theorem is_whitelisted_process_lowpid (wl : List String) (n : String)
    (pid : Nat) (h1 : 0 < pid) (h2 : pid ≤ 10) (h3 : n.data ≠ []) :
    is_whitelisted_process wl (some n) pid = true := by
  have he : n.data.isEmpty = false := by
    cases hnn : n.data with
    | nil => exact absurd hnn h3
    | cons a l => rfl
  have hd : (pid != 0 && decide (pid ≤ 10)) = true := by
    simp [Nat.pos_iff_ne_zero.mp h1, h2]
  unfold is_whitelisted_process
  simp [he, hd]

/-- C2 amended: for every nonzero pid at or below the low-PID floor (10)
whose process exists and reports a non-empty name, `terminate_process`
returns the `Whitelisted` refusal, leaves the manager state unchanged, and
invokes no OS kill call (neither the graceful terminate nor the force
kill). -/
theorem terminate_lowpid_whitelisted (procs : Nat → ProcView)
    (wl : List String) (now : Nat) (st : MgrState) (pid : Nat) (r : String)
    (name : String) (k : TermKind)
    (h1 : 0 < pid) (h2 : pid ≤ 10) (hp : procs pid = .alive name k)
    (hn : name.data ≠ []) :
    (terminate_process procs wl now st pid r).res = .whitelisted ∧
    (terminate_process procs wl now st pid r).st = st ∧
    (terminate_process procs wl now st pid r).calls = [] := by
  have h0 : (pid == 0) = false := by
    simp [Nat.pos_iff_ne_zero.mp h1]
  simp [terminate_process, h0, hp,
    is_whitelisted_process_lowpid wl name pid h1 h2 hn]

/-- Witness for C2 amended at pid 1 with the non-matching name `"xyz"`. -/
theorem terminate_lowpid_whitelisted_witness :
    (terminate_process (fun _ => .alive "xyz" .graceful) [] 0 initialMgrState 1 "r").res
      = .whitelisted ∧
    (terminate_process (fun _ => .alive "xyz" .graceful) [] 0 initialMgrState 1 "r").st
      = initialMgrState ∧
    (terminate_process (fun _ => .alive "xyz" .graceful) [] 0 initialMgrState 1 "r").calls
      = [] :=
  terminate_lowpid_whitelisted (fun _ => .alive "xyz" .graceful) [] 0
    initialMgrState 1 "r" "xyz" .graceful (by decide) (by decide) rfl
    (by decide)

/-- C10: the process whitelist fails closed on degenerate identifiers: a
missing (`None`) or empty name is never whitelisted whatever the pid; with
a name matching neither the critical list nor the user whitelist, pid 0
yields exactly the name-based verdict (so no low-PID exemption); and
whenever a non-matching process is whitelisted, its name was non-empty and
its pid nonzero and at most 10 — the only way to reach the low-PID
exemption. -/
theorem is_whitelisted_process_edge_cases :
    (∀ (wl : List String) (pid : Nat),
      is_whitelisted_process wl none pid = false) ∧
    (∀ (wl : List String) (n : String) (pid : Nat), n.data = [] →
      is_whitelisted_process wl (some n) pid = false) ∧
    (∀ (wl : List String) (n : String), n.data ≠ [] →
      is_whitelisted_process wl (some n) 0
        = (matchesCritical n || wl.contains n)) ∧
    (∀ (wl : List String) (n : String) (pid : Nat),
      is_whitelisted_process wl (some n) pid = true →
      matchesCritical n = false → wl.contains n = false →
      n.data ≠ [] ∧ pid ≠ 0 ∧ pid ≤ 10) := by
  refine ⟨fun wl pid => rfl, ?_, ?_, ?_⟩
  · intro wl n pid hn
    have he : n.data.isEmpty = true := by
      rw [hn]; rfl
    simp [is_whitelisted_process, he]
  · intro wl n hn
    have he : n.data.isEmpty = false := by
      cases hnn : n.data with
      | nil => exact absurd hnn hn
      | cons a l => rfl
    cases hmc : matchesCritical n <;> cases hcl : wl.contains n <;>
      simp [is_whitelisted_process, he, hmc, hcl]
    · intro hm
      have hc2 : wl.contains n = true := List.elem_eq_true_of_mem hm
      rw [hc2] at hcl
      simp at hcl
    · exact List.mem_of_elem_eq_true hcl
  · intro wl n pid hw hcrit hcfg
    have he : n.data.isEmpty = false := by
      by_contra hcon
      have he2 : n.data.isEmpty = true := by
        cases hnn : n.data.isEmpty
        · exact absurd hnn hcon
        · rfl
      rw [is_whitelisted_process] at hw
      simp [he2] at hw
    rw [is_whitelisted_process] at hw
    simp only [he, hcrit, hcfg, Bool.false_eq_true, if_false,
      Bool.and_eq_true, bne_iff_ne, ne_eq, decide_eq_true_eq] at hw
    refine ⟨?_, ?_, ?_⟩
    · intro hnn
      rw [hnn] at he
      exact absurd he (by simp)
    · by_cases hz : pid = 0
      · rw [hz] at hw; simp at hw
      · exact hz
    · by_cases hle : pid ≤ 10
      · exact hle
      · rw [if_neg (by simp [hle])] at hw
        exact absurd hw (by simp)

/-- Witness for C10: pid 0 with the critical name `"sshd"` and an empty
user whitelist reduces to the name-based verdict. -/
theorem is_whitelisted_process_edge_cases_witness :
    "sshd".data ≠ [] ∧
    is_whitelisted_process [] (some "sshd") 0
      = (matchesCritical "sshd" || List.contains [] "sshd") :=
  ⟨by decide, is_whitelisted_process_edge_cases.2.2.1 [] "sshd" (by decide)⟩

/-- The scenario connection of the spec: foreign port 31337, foreign
address `203.0.113.5`, pid 4821, program `"tmpx"`. -/
def scenarioConn : Connection :=
  ⟨some 31337, none, some (.v4 ⟨203, 0, 113, 5⟩), some 4821, some "tmpx", 0⟩

/-- Counterexample for C6: the scenario connection scores 45, not the
claimed 65, because Python's `ipaddress` counts the documentation range
`203.0.113.0/24` as private, so `is_internal_ip` is true for
`203.0.113.5` and the +20 external-address contribution is not added; with
score 45 no alert is emitted (45 is not above 50). -/
theorem risk_score_scenario_counterexample :
    defaultScanConfig.suspicious_ports.contains 31337 = true ∧
    calculate_basic_risk_score defaultScanConfig scenarioConn ≠ 65 ∧
    calculate_basic_risk_score defaultScanConfig scenarioConn = 45 ∧
    alertSeverityFor (calculate_basic_risk_score defaultScanConfig scenarioConn)
      = none := by
  decide

/-- C6 amended: the scorer is additive over the four rules (+30 suspicious
foreign port, +25 suspicious local port, +20 foreign address present and
not internal in the sense of Python's `ipaddress` — which counts
documentation ranges such as `203.0.113.0/24` as private — and +15
suspicious name substring), clamped to at most 100; an alert is emitted
exactly when the score exceeds 50, with severity high above 80 and medium
otherwise; and the scenario connection scores 45 (not 65), raising no
alert. -/
theorem risk_score_additive_amended :
    (∀ (cfg : ScanConfig) (c : Connection),
      calculate_basic_risk_score cfg c =
        min
          ((match c.foreign_port with
            | some p => if cfg.suspicious_ports.contains p then 30 else 0
            | none => 0)
           + (match c.local_port with
              | some p => if cfg.suspicious_ports.contains p then 25 else 0
              | none => 0)
           + (if addrTruthy c.foreign_ip && !is_internal_ip c.foreign_ip then 20
              else 0)
           + (if !(c.program.getD "").data.isEmpty
                 && suspiciousNamePatterns.any
                      (fun pat => strContains (strLower (c.program.getD "")) pat)
              then 15 else 0))
          100) ∧
    (∀ r : Nat, 80 < r → alertSeverityFor r = some .high) ∧
    (∀ r : Nat, 50 < r → r ≤ 80 → alertSeverityFor r = some .medium) ∧
    (∀ r : Nat, r ≤ 50 → alertSeverityFor r = none) ∧
    calculate_basic_risk_score defaultScanConfig scenarioConn = 45 ∧
    alertSeverityFor (calculate_basic_risk_score defaultScanConfig scenarioConn)
      = none := by
  refine ⟨?_, ?_, ?_, ?_, by decide, by decide⟩
  · intro cfg c
    simp [calculate_basic_risk_score, Nat.add_assoc]
  · intro r h
    unfold alertSeverityFor
    rw [if_pos (by omega), if_pos (by omega)]
  · intro r h1 h2
    unfold alertSeverityFor
    rw [if_pos (by omega), if_neg (by omega)]
  · intro r h
    unfold alertSeverityFor
    rw [if_neg (by omega)]

/-- Witness for C6 amended: a score of 81 yields a high-severity alert. -/
theorem risk_score_additive_amended_witness :
    80 < 81 ∧ alertSeverityFor 81 = some .high :=
  ⟨by decide, risk_score_additive_amended.2.1 81 (by decide)⟩

theorem jLookup_jSet_self (base : List (String × JVal)) (k : String)
    (v : JVal) : jLookup (jSet base k v) k = some v := by
  induction base with
  | nil => simp [jSet, jLookup]
  | cons e rest ih =>
    by_cases he : (e.1 == k) = true
    · simp [jSet, jLookup, he]
    · simp [jSet, jLookup, he, ih]

theorem jLookup_jSet_ne (base : List (String × JVal)) (k1 k2 : String)
    (v : JVal) (hk : k1 ≠ k2) :
    jLookup (jSet base k1 v) k2 = jLookup base k2 := by
  induction base with
  | nil =>
    have h12 : (k1 == k2) = false := by
      simp [hk]
    simp [jSet, jLookup, h12]
  | cons e rest ih =>
    by_cases he : (e.1 == k1) = true
    · have he2 : (e.1 == k2) = false := by
        have : e.1 = k1 := by
          simpa using he
        simp [this, hk]
      simp [jSet, jLookup, he, he2]
    · simp only [jSet, he, if_false, Bool.false_eq_true]
      by_cases hh : (e.1 == k2) = true
      · simp [jLookup, hh]
      · simp [jLookup, hh, ih]

theorem jLookup_eq_none (base : List (String × JVal)) (k : String)
    (h : ∀ e ∈ base, e.1 ≠ k) : jLookup base k = none := by
  induction base with
  | nil => rfl
  | cons e rest ih =>
    have he : (e.1 == k) = false := by
      simp [h e (by simp)]
    simp only [jLookup, he, Bool.false_eq_true, if_false]
    exact ih fun e2 hm => h e2 (by simp [hm])

/-- Counterexample for C9: a key foreign to every recognized configuration
key is nonetheless merged into the effective configuration by
`deep_merge_config`, because its `else` branch assigns every update key
into the base unconditionally. -/
theorem config_unknown_key_merged :
    jLookup (deepMerge defaultConfigDict [("unrecognized_key", JVal.num 1)])
      "unrecognized_key" = some (JVal.num 1) := by
  simp only [deepMerge]
  exact jLookup_jSet_self defaultConfigDict "unrecognized_key" (JVal.num 1)

/-- C9 amended: `deep_merge_config` copies every key of the update into the
effective configuration — including keys that are not among the recognized
configuration keys — while keys absent from the update keep their default
values. -/
theorem config_merge_amended :
    (∀ (base update : List (String × JVal)) (k : String),
      (∀ e ∈ update, e.1 ≠ k) →
      jLookup (deepMerge base update) k = jLookup base k) ∧
    (∀ (base : List (String × JVal)) (k : String) (v : JVal),
      (∀ e ∈ base, e.1 ≠ k) →
      jLookup (deepMerge base [(k, v)]) k = some v) := by
  constructor
  · intro base update k h
    induction update generalizing base with
    | nil => simp [deepMerge]
    | cons e rest ih =>
      obtain ⟨k1, v1⟩ := e
      have hk : k1 ≠ k := h (k1, v1) (by simp)
      have hrest : ∀ e2 ∈ rest, e2.1 ≠ k := fun e2 hm => h e2 (by simp [hm])
      have hstep : ∀ w, jLookup (deepMerge (jSet base k1 w) rest) k
          = jLookup base k := by
        intro w
        rw [ih (jSet base k1 w) hrest, jLookup_jSet_ne base k1 k w hk]
      cases v1 with
      | dict u =>
        simp only [deepMerge]
        cases hl : jLookup base k1 with
        | none => exact hstep _
        | some jv => cases jv <;> exact hstep _
      | num n =>
        simp only [deepMerge]
        exact hstep _
      | str s =>
        simp only [deepMerge]
        exact hstep _
      | boolean b =>
        simp only [deepMerge]
        exact hstep _
      | arr xs =>
        simp only [deepMerge]
        exact hstep _
  · intro base k v h
    have hnone : jLookup base k = none := jLookup_eq_none base k h
    cases v with
    | dict u =>
      simp only [deepMerge, hnone]
      exact jLookup_jSet_self base k (JVal.dict u)
    | num n => simpa [deepMerge] using jLookup_jSet_self base k (JVal.num n)
    | str s => simpa [deepMerge] using jLookup_jSet_self base k (JVal.str s)
    | boolean b =>
      simpa [deepMerge] using jLookup_jSet_self base k (JVal.boolean b)
    | arr xs => simpa [deepMerge] using jLookup_jSet_self base k (JVal.arr xs)

/-- Witness for C9 amended: merging an override of `response.enabled` into
the default configuration leaves the unrelated key `suspicious_ports`
reading its default value. -/
theorem config_merge_amended_witness :
    (∀ e ∈ [("response", JVal.dict [("enabled", JVal.boolean true)])],
      e.1 ≠ "suspicious_ports") ∧
    jLookup
        (deepMerge defaultConfigDict
          [("response", JVal.dict [("enabled", JVal.boolean true)])])
        "suspicious_ports"
      = jLookup defaultConfigDict "suspicious_ports" :=
  ⟨by decide,
    config_merge_amended.1 defaultConfigDict
      [("response", JVal.dict [("enabled", JVal.boolean true)])]
      "suspicious_ports" (by decide)⟩

theorem unblock_preserves_not_mem (sys : OsKind) (now : Nat) (st : MgrState)
    (b a : Addr) (h : a ∉ st.blocked_ips) :
    a ∉ (unblock_ip sys now st b).st.blocked_ips := by
  by_cases hb : b ∈ st.blocked_ips
  · cases sys <;> simp [unblock_ip, hb, log_response, List.mem_filter] <;>
      intro hm <;> exact absurd hm h
  · simp [unblock_ip, hb, h]

theorem unblock_preserves_log_mem (sys : OsKind) (now : Nat) (st : MgrState)
    (b : Addr) (e : AuditEntry) (h : e ∈ st.response_log) :
    e ∈ (unblock_ip sys now st b).st.response_log := by
  by_cases hb : b ∈ st.blocked_ips
  · cases sys <;> simp [unblock_ip, hb, log_response, h]
  · simp [unblock_ip, hb, h]

theorem unblock_preserves_db_all (sys : OsKind) (now : Nat) (st : MgrState)
    (b a : Addr) (h : st.db_blocked.all (fun r => r.ip != a) = true) :
    (unblock_ip sys now st b).st.db_blocked.all (fun r => r.ip != a) = true := by
  by_cases hb : b ∈ st.blocked_ips
  · cases sys <;> simp_all [unblock_ip, hb, log_response, List.all_eq_true,
      List.mem_filter]
  · simp [unblock_ip, hb, h]

theorem unblock_preserves_mem_ne (sys : OsKind) (now : Nat) (st : MgrState)
    (b a : Addr) (h : a ∈ st.blocked_ips) (hne : a ≠ b) :
    a ∈ (unblock_ip sys now st b).st.blocked_ips := by
  by_cases hb : b ∈ st.blocked_ips
  · cases sys <;> simp [unblock_ip, hb, log_response, List.mem_filter, h, hne]
  · simp [unblock_ip, hb, h]

theorem unblock_removes (sys : OsKind) (now : Nat) (st : MgrState) (ip : Addr)
    (hin : ip ∈ st.blocked_ips) (hs : sys ≠ .other) :
    ip ∉ (unblock_ip sys now st ip).st.blocked_ips ∧
    (unblock_ip sys now st ip).st.db_blocked.all (fun r => r.ip != ip) = true ∧
    (⟨"unblock_ip", ip.text, "Manual unblock", now, true⟩ : AuditEntry)
      ∈ (unblock_ip sys now st ip).st.response_log := by
  cases sys <;>
    simp [unblock_ip, hin, log_response, List.mem_filter, List.all_eq_true] at hs ⊢

theorem sweep_step_preserves_not_mem (sys : OsKind) (now : Nat)
    (st : MgrState) (row : BlockedRow) (a : Addr) (h : a ∉ st.blocked_ips) :
    a ∉ (sweep_step sys now st row).blocked_ips := by
  rcases hexp : row.auto_unblock_time with _ | s | t
  · simpa [sweep_step, hexp] using h
  · simpa [sweep_step, hexp] using h
  · by_cases ht : now ≥ t
    · simp only [sweep_step, hexp]
      rw [if_pos ht]
      exact unblock_preserves_not_mem sys now st row.ip a h
    · simp only [sweep_step, hexp]
      rw [if_neg ht]
      exact h

theorem sweep_step_preserves_log_mem (sys : OsKind) (now : Nat)
    (st : MgrState) (row : BlockedRow) (e : AuditEntry)
    (h : e ∈ st.response_log) :
    e ∈ (sweep_step sys now st row).response_log := by
  rcases hexp : row.auto_unblock_time with _ | s | t
  · simpa [sweep_step, hexp] using h
  · simpa [sweep_step, hexp] using h
  · by_cases ht : now ≥ t
    · simp only [sweep_step, hexp]
      rw [if_pos ht]
      exact unblock_preserves_log_mem sys now st row.ip e h
    · simp only [sweep_step, hexp]
      rw [if_neg ht]
      exact h

theorem sweep_step_preserves_db_all (sys : OsKind) (now : Nat)
    (st : MgrState) (row : BlockedRow) (a : Addr)
    (h : st.db_blocked.all (fun r => r.ip != a) = true) :
    (sweep_step sys now st row).db_blocked.all (fun r => r.ip != a) = true := by
  rcases hexp : row.auto_unblock_time with _ | s | t
  · simpa [sweep_step, hexp] using h
  · simpa [sweep_step, hexp] using h
  · by_cases ht : now ≥ t
    · simp only [sweep_step, hexp]
      rw [if_pos ht]
      exact unblock_preserves_db_all sys now st row.ip a h
    · simp only [sweep_step, hexp]
      rw [if_neg ht]
      exact h

theorem sweep_step_preserves_mem_ne (sys : OsKind) (now : Nat)
    (st : MgrState) (row : BlockedRow) (a : Addr) (h : a ∈ st.blocked_ips)
    (hne : a ≠ row.ip) :
    a ∈ (sweep_step sys now st row).blocked_ips := by
  rcases hexp : row.auto_unblock_time with _ | s | t
  · simpa [sweep_step, hexp] using h
  · simpa [sweep_step, hexp] using h
  · by_cases ht : now ≥ t
    · simp only [sweep_step, hexp]
      rw [if_pos ht]
      exact unblock_preserves_mem_ne sys now st row.ip a h hne
    · simp only [sweep_step, hexp]
      rw [if_neg ht]
      exact h

theorem sweepAux_preserves (sys : OsKind) (now : Nat) (rows : List BlockedRow) :
    ∀ (st : MgrState) (a : Addr) (e : AuditEntry),
      (a ∉ st.blocked_ips → a ∉ (rows.foldl (sweep_step sys now) st).blocked_ips) ∧
      (e ∈ st.response_log → e ∈ (rows.foldl (sweep_step sys now) st).response_log) ∧
      (st.db_blocked.all (fun r => r.ip != a) = true →
        (rows.foldl (sweep_step sys now) st).db_blocked.all (fun r => r.ip != a)
          = true) := by
  induction rows with
  | nil => exact fun st a e => ⟨id, id, id⟩
  | cons r0 rest ih =>
    intro st a e
    refine ⟨fun h => ?_, fun h => ?_, fun h => ?_⟩
    · exact (ih (sweep_step sys now st r0) a e).1
        (sweep_step_preserves_not_mem sys now st r0 a h)
    · exact (ih (sweep_step sys now st r0) a e).2.1
        (sweep_step_preserves_log_mem sys now st r0 e h)
    · exact (ih (sweep_step sys now st r0) a e).2.2
        (sweep_step_preserves_db_all sys now st r0 a h)

theorem sweepAux_removes (sys : OsKind) (now : Nat) (hs : sys ≠ .other) :
    ∀ (rows : List BlockedRow) (st : MgrState) (row : BlockedRow) (t : Nat),
      row ∈ rows → row.auto_unblock_time = .time t → t ≤ now →
      (rows.map (fun r => r.ip)).Nodup →
      row.ip ∈ st.blocked_ips →
      row.ip ∉ (rows.foldl (sweep_step sys now) st).blocked_ips ∧
      (rows.foldl (sweep_step sys now) st).db_blocked.all
          (fun r2 => r2.ip != row.ip) = true ∧
      (⟨"unblock_ip", row.ip.text, "Manual unblock", now, true⟩ : AuditEntry)
        ∈ (rows.foldl (sweep_step sys now) st).response_log := by
  intro rows
  induction rows with
  | nil => intro st row t hmem; exact absurd hmem (List.not_mem_nil row)
  | cons r0 rest ih =>
    intro st row t hmem hexp hnow hnd hin
    rcases List.mem_cons.mp hmem with heq | htl
    · subst heq
      have hstep : sweep_step sys now st row = (unblock_ip sys now st row.ip).st := by
        simp only [sweep_step, hexp]
        rw [if_pos hnow]
      have hrem := unblock_removes sys now st row.ip hin hs
      rw [List.foldl_cons, hstep]
      exact ⟨(sweepAux_preserves sys now rest _ row.ip
          ⟨"unblock_ip", row.ip.text, "Manual unblock", now, true⟩).1 hrem.1,
        (sweepAux_preserves sys now rest _ row.ip
          ⟨"unblock_ip", row.ip.text, "Manual unblock", now, true⟩).2.2 hrem.2.1,
        (sweepAux_preserves sys now rest _ row.ip
          ⟨"unblock_ip", row.ip.text, "Manual unblock", now, true⟩).2.1 hrem.2.2⟩
    · have hne : row.ip ≠ r0.ip := by
        intro hcon
        have : r0.ip ∈ rest.map (fun r => r.ip) :=
          hcon ▸ List.mem_map_of_mem (fun r => r.ip) htl
        exact (List.nodup_cons.mp hnd).1 this
      rw [List.foldl_cons]
      exact ih (sweep_step sys now st r0) row t htl hexp hnow
        (List.nodup_cons.mp hnd).2
        (sweep_step_preserves_mem_ne sys now st r0 row.ip hin hne)

/-- A manager state holding one expired block of `8.8.8.8`. -/
def expiredBlockState : MgrState :=
  ⟨[Addr.v4 ⟨8, 8, 8, 8⟩], [],
    [⟨Addr.v4 ⟨8, 8, 8, 8⟩, "r", 0, .time 99⟩], [], [], []⟩

/-- Counterexample for C7: sweeping an expired block produces an unblock
audit entry whose reason is the fixed string `"Manual unblock"` — exactly
the reason `unblock_ip` writes for a manual unblock — so the sweep's audit
reason is not distinct from manual unblocks. -/
theorem sweep_reason_not_distinct :
    (auto_unblock_expired .linux 100 expiredBlockState).response_log
      = [⟨"unblock_ip", "8.8.8.8", "Manual unblock", 100, true⟩] ∧
    (unblock_ip .linux 100 expiredBlockState (Addr.v4 ⟨8, 8, 8, 8⟩)).st.response_log
      = [⟨"unblock_ip", "8.8.8.8", "Manual unblock", 100, true⟩] := by
  decide

/-- C7 amended: one sweep removes, via `unblock_ip`, every blocked address
whose expiry timestamp has passed (from the in-memory set and from the
`blocked_ips` table), appending for each an unblock audit entry whose
reason is the same fixed string `"Manual unblock"` used by manual unblocks
(not a distinct reason); and a row whose timestamp text raises inside the
loop is skipped without preventing the sweep of the remaining rows. -/
theorem sweepExpired_amended :
    (∀ (sys : OsKind) (now : Nat) (st : MgrState),
      sys ≠ .other →
      (st.db_blocked.map (fun r => r.ip)).Nodup →
      ∀ row ∈ st.db_blocked, ∀ t : Nat,
        row.auto_unblock_time = .time t → t ≤ now →
        row.ip ∈ st.blocked_ips →
        row.ip ∉ (auto_unblock_expired sys now st).blocked_ips ∧
        (auto_unblock_expired sys now st).db_blocked.all
            (fun r2 => r2.ip != row.ip) = true ∧
        (⟨"unblock_ip", row.ip.text, "Manual unblock", now, true⟩ : AuditEntry)
          ∈ (auto_unblock_expired sys now st).response_log) ∧
    (∀ (sys : OsKind) (now : Nat) (st : MgrState) (rows1 rows2 : List BlockedRow)
        (ip : Addr) (r : String) (ts : Nat) (s : String),
      st.db_blocked = rows1 ++ ⟨ip, r, ts, .malformed s⟩ :: rows2 →
      auto_unblock_expired sys now st
        = (rows1 ++ rows2).foldl (sweep_step sys now) st) := by
  constructor
  · intro sys now st hs hnd row hmem t hexp hnow hin
    exact sweepAux_removes sys now hs st.db_blocked st row t hmem hexp hnow
      hnd hin
  · intro sys now st rows1 rows2 ip r ts s hdb
    unfold auto_unblock_expired
    rw [hdb, List.foldl_append, List.foldl_cons, List.foldl_append]
    rfl

/-- Witness for C7 amended: the expired block of `8.8.8.8` is removed by
one sweep at time 100 on Linux. -/
theorem sweepExpired_amended_witness :
    (99 : Nat) ≤ 100 ∧
    (Addr.v4 ⟨8, 8, 8, 8⟩)
      ∉ (auto_unblock_expired .linux 100 expiredBlockState).blocked_ips :=
  ⟨by decide,
    (sweepExpired_amended.1 .linux 100 expiredBlockState (by decide)
      (by decide) ⟨Addr.v4 ⟨8, 8, 8, 8⟩, "r", 0, .time 99⟩ (by decide) 99 rfl
      (by decide) (by decide)).1⟩

theorem check_no_reset (cfg : ScanConfig) (now : Nat) (cs : CtrlState)
    (h : now ≤ cs.last_auto_block_reset + 3600) :
    check_auto_block_limits cfg now cs
      = (decide (cs.auto_block_count < cfg.max_auto_blocks_per_hour), cs) := by
  unfold check_auto_block_limits
  rw [if_neg (by omega)]

theorem handle_step_facts (cfg : ScanConfig) (sys : OsKind)
    (procs : Nat → ProcView) (fw : FwBehavior) (now : Nat) (st : MgrState)
    (cs : CtrlState) (c : Connection)
    (hno : now ≤ cs.last_auto_block_reset + 3600) :
    (handle_suspicious_connection cfg sys procs fw now st cs c).ctrl.last_auto_block_reset
      = cs.last_auto_block_reset ∧
    ((handle_suspicious_connection cfg sys procs fw now st cs c).act.isBlockSuccess = true →
      cs.auto_block_count < cfg.max_auto_blocks_per_hour ∧
      (handle_suspicious_connection cfg sys procs fw now st cs c).ctrl.auto_block_count
        = cs.auto_block_count + 1) ∧
    ((handle_suspicious_connection cfg sys procs fw now st cs c).act.isBlockSuccess = false →
      (handle_suspicious_connection cfg sys procs fw now st cs c).ctrl.auto_block_count
        = cs.auto_block_count) ∧
    (cfg.max_auto_blocks_per_hour ≤ cs.auto_block_count →
      (handle_suspicious_connection cfg sys procs fw now st cs c).act.isExecutorCall
        = false ∧
      (handle_suspicious_connection cfg sys procs fw now st cs c).mgr = st) := by
  unfold handle_suspicious_connection
  rw [check_no_reset cfg now cs hno]
  by_cases hen : cfg.response_enabled
  · by_cases hau : cfg.auto_response
    · by_cases hok : cs.auto_block_count < cfg.max_auto_blocks_per_hour
      · simp only [hen, hau, hok, Bool.not_true, Bool.false_eq_true, if_false,
          decide_eq_true_eq, decide_True, if_true]
        split
        · simp [AutoAction.isBlockSuccess, AutoAction.isExecutorCall] <;> omega
        · split
          · split
            · simp [AutoAction.isBlockSuccess, AutoAction.isExecutorCall] <;>
                omega
            · simp [AutoAction.isBlockSuccess, AutoAction.isExecutorCall] <;>
                omega
          · simp [AutoAction.isBlockSuccess, AutoAction.isExecutorCall] <;>
              omega
      · simp only [hen, hau, Bool.not_true, Bool.false_eq_true, if_false,
          decide_eq_true_eq, if_true]
        rw [if_neg (by simpa using hok)]
        by_cases hrc : cfg.require_confirmation && decide (c.risk_score > 50)
        · simp [hrc, AutoAction.isBlockSuccess, AutoAction.isExecutorCall]
        · simp [hrc, AutoAction.isBlockSuccess, AutoAction.isExecutorCall]
    · by_cases hrc : cfg.require_confirmation && decide (c.risk_score > 50)
      · simp [hen, hau, hrc, AutoAction.isBlockSuccess, AutoAction.isExecutorCall]
      · simp [hen, hau, hrc, AutoAction.isBlockSuccess, AutoAction.isExecutorCall]
  · simp [hen, AutoAction.isBlockSuccess, AutoAction.isExecutorCall]

theorem successfulBlocks_cons (a : AutoAction) (l : List AutoAction) :
    successfulBlocks (a :: l)
      = (if a.isBlockSuccess then 1 else 0) + successfulBlocks l := by
  unfold successfulBlocks
  rw [List.filter_cons]
  by_cases h : a.isBlockSuccess <;> simp [h, Nat.add_comm]

theorem autoRun_components (cfg : ScanConfig) (sys : OsKind)
    (procs : Nat → ProcView) (st : MgrState) (cs : CtrlState) (e : AutoEvent)
    (rest : List AutoEvent) :
    (autoRun cfg sys procs st cs (e :: rest)).2.2
      = (handle_suspicious_connection cfg sys procs e.fw e.now st cs e.conn).act
          :: (autoRun cfg sys procs
                (handle_suspicious_connection cfg sys procs e.fw e.now st cs e.conn).mgr
                (handle_suspicious_connection cfg sys procs e.fw e.now st cs e.conn).ctrl
                rest).2.2 := by
  rfl

theorem autoRun_bound (cfg : ScanConfig) (sys : OsKind)
    (procs : Nat → ProcView) :
    ∀ (events : List AutoEvent) (st : MgrState) (cs : CtrlState),
      (∀ e ∈ events, e.now ≤ cs.last_auto_block_reset + 3600) →
      successfulBlocks (autoRun cfg sys procs st cs events).2.2
          + cs.auto_block_count
        ≤ max cfg.max_auto_blocks_per_hour cs.auto_block_count := by
  intro events
  induction events with
  | nil =>
    intro st cs h
    simp [autoRun, successfulBlocks, Nat.le_max_right]
  | cons e rest ih =>
    intro st cs h
    have he : e.now ≤ cs.last_auto_block_reset + 3600 := h e (by simp)
    have hf := handle_step_facts cfg sys procs e.fw e.now st cs e.conn he
    have hrest : ∀ e2 ∈ rest,
        e2.now ≤ (handle_suspicious_connection cfg sys procs e.fw e.now st cs
          e.conn).ctrl.last_auto_block_reset + 3600 := by
      rw [hf.1]
      exact fun e2 hm => h e2 (by simp [hm])
    have hb := ih
      (handle_suspicious_connection cfg sys procs e.fw e.now st cs e.conn).mgr
      (handle_suspicious_connection cfg sys procs e.fw e.now st cs e.conn).ctrl
      hrest
    rw [autoRun_components, successfulBlocks_cons]
    by_cases hbs : (handle_suspicious_connection cfg sys procs e.fw e.now st cs
        e.conn).act.isBlockSuccess = true
    · obtain ⟨hlt, hcount⟩ := hf.2.1 hbs
      rw [hcount] at hb
      rw [hbs]
      have hm1 : max cfg.max_auto_blocks_per_hour (cs.auto_block_count + 1)
          = cfg.max_auto_blocks_per_hour := max_eq_left (by omega)
      have hm2 : max cfg.max_auto_blocks_per_hour cs.auto_block_count
          = cfg.max_auto_blocks_per_hour := max_eq_left (by omega)
      rw [hm1] at hb
      rw [hm2]
      simp only [if_true]
      omega
    · have hbfalse : (handle_suspicious_connection cfg sys procs e.fw e.now st
          cs e.conn).act.isBlockSuccess = false := by
        cases hx : (handle_suspicious_connection cfg sys procs e.fw e.now st cs
            e.conn).act.isBlockSuccess
        · rfl
        · exact absurd hx hbs
      obtain hcount := hf.2.2.1 hbfalse
      rw [hcount] at hb
      rw [hbfalse]
      simp only [Bool.false_eq_true, if_false]
      omega

/-- C5: the automatic-response budget is enforced: (1) with the budget
exhausted and no reset due (at most one hour since the last reset), a
scored connection triggers no Executor call at all and the manager state is
untouched; (2) within the hour the counter is incremented exactly on a
successful automatic block and unchanged otherwise; (3) the counters'
reset timestamp is unchanged unless strictly more than one hour has
elapsed; and (4) over any run of scored connections falling within one
hour of the last reset and starting with a zero counter, at most
`max_auto_blocks_per_hour` successful automatic blocks occur. -/
theorem rate_limit_budget :
    (∀ (cfg : ScanConfig) (sys : OsKind) (procs : Nat → ProcView)
        (fw : FwBehavior) (now : Nat) (st : MgrState) (cs : CtrlState)
        (c : Connection),
      cfg.max_auto_blocks_per_hour ≤ cs.auto_block_count →
      now ≤ cs.last_auto_block_reset + 3600 →
      (handle_suspicious_connection cfg sys procs fw now st cs c).act.isExecutorCall
          = false ∧
      (handle_suspicious_connection cfg sys procs fw now st cs c).mgr = st) ∧
    (∀ (cfg : ScanConfig) (sys : OsKind) (procs : Nat → ProcView)
        (fw : FwBehavior) (now : Nat) (st : MgrState) (cs : CtrlState)
        (c : Connection),
      now ≤ cs.last_auto_block_reset + 3600 →
      ((handle_suspicious_connection cfg sys procs fw now st cs c).act.isBlockSuccess
          = true →
        (handle_suspicious_connection cfg sys procs fw now st cs c).ctrl.auto_block_count
          = cs.auto_block_count + 1) ∧
      ((handle_suspicious_connection cfg sys procs fw now st cs c).act.isBlockSuccess
          = false →
        (handle_suspicious_connection cfg sys procs fw now st cs c).ctrl.auto_block_count
          = cs.auto_block_count)) ∧
    (∀ (cfg : ScanConfig) (sys : OsKind) (procs : Nat → ProcView)
        (fw : FwBehavior) (now : Nat) (st : MgrState) (cs : CtrlState)
        (c : Connection),
      now ≤ cs.last_auto_block_reset + 3600 →
      (handle_suspicious_connection cfg sys procs fw now st cs c).ctrl.last_auto_block_reset
        = cs.last_auto_block_reset) ∧
    (∀ (cfg : ScanConfig) (sys : OsKind) (procs : Nat → ProcView)
        (events : List AutoEvent) (st : MgrState) (cs : CtrlState),
      cs.auto_block_count = 0 →
      (∀ e ∈ events, e.now ≤ cs.last_auto_block_reset + 3600) →
      successfulBlocks (autoRun cfg sys procs st cs events).2.2
        ≤ cfg.max_auto_blocks_per_hour) := by
  refine ⟨?_, ?_, ?_, ?_⟩
  · intro cfg sys procs fw now st cs c hex hno
    exact (handle_step_facts cfg sys procs fw now st cs c hno).2.2.2 hex
  · intro cfg sys procs fw now st cs c hno
    exact ⟨fun hbs =>
        ((handle_step_facts cfg sys procs fw now st cs c hno).2.1 hbs).2,
      (handle_step_facts cfg sys procs fw now st cs c hno).2.2.1⟩
  · intro cfg sys procs fw now st cs c hno
    exact (handle_step_facts cfg sys procs fw now st cs c hno).1
  · intro cfg sys procs events st cs h0 h
    have hb := autoRun_bound cfg sys procs events st cs h
    rw [h0] at hb
    simpa using hb

/-- The configuration of the spec's rate-limit scenario: responses and
automatic mode enabled, at most 2 automatic blocks per hour. -/
def rateCfg : ScanConfig :=
  { defaultScanConfig with
    response_enabled := true
    auto_response := true
    max_auto_blocks_per_hour := 2 }

/-- A connection scoring 85, above the auto-block threshold of 80. -/
def overThresholdConn (a : IPv4) : Connection :=
  ⟨none, none, some (.v4 a), none, none, 85⟩

/-- Three above-threshold connections arriving in the same hour. -/
def rateEvents : List AutoEvent :=
  [ ⟨10, overThresholdConn ⟨8, 8, 8, 8⟩, .ok⟩
  , ⟨20, overThresholdConn ⟨9, 9, 9, 9⟩, .ok⟩
  , ⟨30, overThresholdConn ⟨1, 1, 1, 1⟩, .ok⟩ ]

/-- Witness for C5: with `max_auto_blocks_per_hour = 2`, the three
above-threshold connections of the same hour produce exactly 2 successful
automatic blocks, within the proved bound. -/
theorem rate_limit_budget_witness :
    (⟨0, 0⟩ : CtrlState).auto_block_count = 0 ∧
    (∀ e ∈ rateEvents,
      e.now ≤ (⟨0, 0⟩ : CtrlState).last_auto_block_reset + 3600) ∧
    successfulBlocks
        (autoRun rateCfg .linux (fun _ => .missing) initialMgrState ⟨0, 0⟩
          rateEvents).2.2
      ≤ rateCfg.max_auto_blocks_per_hour ∧
    successfulBlocks
        (autoRun rateCfg .linux (fun _ => .missing) initialMgrState ⟨0, 0⟩
          rateEvents).2.2
      = 2 :=
  ⟨rfl, by decide,
    rate_limit_budget.2.2.2 rateCfg .linux (fun _ => .missing) rateEvents
      initialMgrState ⟨0, 0⟩ rfl (by decide),
    by decide⟩

end NetstatScanner
